import Mathlib

/-!
Verification development for the StreamKit gain plugin examples
(src/examples/plugins/gain-native-c/gain_plugin.c and
src/examples/plugins/gain-wasm-c/gain_plugin.c).

Modelling conventions:
- C float values are modelled exactly as rationals; the wasm variant stores a
  linear gain obtained through powf, modelled over the reals. The C99 nan
  spelling of strtof and sscanf, which no rational can carry, is modelled
  separately with the F32 type (NaN or a finite rational) to trace its flow
  through the clamps.
- Pointers that may be NULL are modelled with Option.
- The send-output capability is a function argument; every invocation a call
  performs is recorded in a returned list, so "zero invocations" is the empty
  list.
- Logging callbacks are fire-and-forget with no observable effect on plugin
  state, so they are omitted from the model.
- malloc is modelled as always succeeding (allocation failure is an
  environment condition, not plugin logic).
-/

/-! ### C ABI types (streamkit_plugin.h) -/

/-- CResult from streamkit_plugin.h: success flag plus an error message that
is NULL (none) on success. -/
structure CResult where
  success : Bool
  error_message : Option String
deriving DecidableEq

/-- Helper CResult_success from the header. -/
def CResult_success : CResult := ⟨true, none⟩

/-- Helper CResult_error from the header. -/
def CResult_error (msg : String) : CResult := ⟨false, some msg⟩

/-- CPacketType discriminant from streamkit_plugin.h. -/
inductive CPacketType
  | rawAudio
  | opusAudio
  | text
  | transcription
  | custom
  | binary
  | any
  | passthrough
deriving DecidableEq

/-- CAudioFrame: sample_rate, channels, and the sample buffer. The samples
pointer may be NULL (none). The sample_count field of the C struct is the
extent of the buffer and is represented by the length of the list. -/
structure CAudioFrame where
  sample_rate : ℕ
  channels : ℕ
  samples : Option (List ℚ)
deriving DecidableEq

/-- CPacket: the tag plus the data pointer interpreted as a CAudioFrame.
The gain plugin dereferences the data pointer only after checking the tag is
RAW_AUDIO, so only the audio interpretation is modelled; a NULL frame pointer
is none. -/
structure CPacket where
  packet_type : CPacketType
  audio : Option CAudioFrame
deriving DecidableEq

/-- GainPluginState from gain-native-c/gain_plugin.c (the log callback fields
are omitted, see the module conventions). -/
structure GainPluginState where
  gain : ℚ
deriving DecidableEq

/-! ### String scanning helpers (strstr, strchr, strtof) -/

/-- C isspace over the characters strtof skips. -/
def isCSpace (c : Char) : Bool :=
  c == ' ' || c == '\t' || c == '\n' || c == '\x0b' || c == '\x0c' || c == '\r'

/-- strstr: the suffix of the haystack beginning at the first occurrence of
the needle, none when the needle does not occur. -/
def strstrSuffix (needle : List Char) : List Char → Option (List Char)
  | [] => if needle.isPrefixOf ([] : List Char) then some [] else none
  | c :: rest =>
    if needle.isPrefixOf (c :: rest) then some (c :: rest)
    else strstrSuffix needle rest

/-- The suffix just past the first occurrence of the needle (strstr followed
by skipping strlen(needle) characters, as the native parser does). -/
def strstrAfter (needle : List Char) (hay : List Char) : Option (List Char) :=
  (strstrSuffix needle hay).map (fun s => s.drop needle.length)

/-- strchr: the suffix beginning at the first occurrence of the character. -/
def strchrSuffix (c : Char) : List Char → Option (List Char)
  | [] => none
  | x :: rest => if x == c then some (x :: rest) else strchrSuffix c rest

/-- Value of a digit character. -/
def digitVal (c : Char) : ℕ := c.toNat - '0'.toNat

/-- Value of a digit string read most-significant first. -/
def digitsToNat (ds : List Char) : ℕ :=
  ds.foldl (fun acc c => 10 * acc + digitVal c) 0

/-- Integer powers of ten as rationals. -/
def pow10 : ℤ → ℚ
  | Int.ofNat n => (10 : ℚ) ^ n
  | Int.negSucc n => 1 / (10 : ℚ) ^ (n + 1)

/-- The signed digit string of a float exponent. A missing digit string
contributes exponent 0, matching strtof, which then leaves the exponent part
unconsumed. -/
def parseExpDigits (s : List Char) : ℤ :=
  match s with
  | '+' :: t => (digitsToNat (t.takeWhile Char.isDigit) : ℤ)
  | '-' :: t =>
    if (t.takeWhile Char.isDigit).isEmpty then 0
    else -(digitsToNat (t.takeWhile Char.isDigit) : ℤ)
  | t => (digitsToNat (t.takeWhile Char.isDigit) : ℤ)

/-- The optional exponent part of a float literal. -/
def parseExp (s : List Char) : ℤ :=
  match s with
  | 'e' :: t => parseExpDigits t
  | 'E' :: t => parseExpDigits t
  | _ => 0

/-- The syntactic parts of a float literal: sign, integer digits, fraction
digits and the exponent value. -/
structure FloatLit where
  neg : Bool
  intDigits : List Char
  fracDigits : List Char
  exp : ℤ
deriving DecidableEq

/-- The scanning phase of strtof: skip spaces, optional sign, decimal digits,
optional fraction, optional exponent. Returns none exactly when no digits are
consumed (the C end == start check). Hexadecimal and inf spellings are not
modelled; the C99 nan spelling, which this finite-valued grammar cannot
carry, is modelled separately by strtofF. -/
def scanFloat (s : List Char) : Option FloatLit :=
  let s1 := s.dropWhile isCSpace
  let signed : Bool × List Char :=
    match s1 with
    | '-' :: t => (true, t)
    | '+' :: t => (false, t)
    | t => (false, t)
  let s2 := signed.2
  let intPart := s2.takeWhile Char.isDigit
  let s3 := s2.dropWhile Char.isDigit
  let fracAndRest : List Char × List Char :=
    match s3 with
    | '.' :: t => (t.takeWhile Char.isDigit, t.dropWhile Char.isDigit)
    | t => ([], t)
  if intPart.isEmpty && fracAndRest.1.isEmpty then none
  else some ⟨signed.1, intPart, fracAndRest.1, parseExp fracAndRest.2⟩

/-- The numeric value of a scanned float literal, exactly as a rational. -/
def FloatLit.toRat (l : FloatLit) : ℚ :=
  (if l.neg then -1 else 1) *
    ((digitsToNat l.intDigits : ℚ) +
      (digitsToNat l.fracDigits : ℚ) / (10 : ℚ) ^ l.fracDigits.length) *
    pow10 l.exp

/-- strtof modelled exactly over the rationals: the scanned literal's value,
none when no number is found. -/
def strtof (s : List Char) : Option ℚ :=
  (scanFloat s).map FloatLit.toRat

/-! ### Native variant: constants and parameter parsing -/

/-- DEFAULT_GAIN from gain-native-c/gain_plugin.c. -/
def DEFAULT_GAIN : ℚ := 1

/-- MIN_GAIN from gain-native-c/gain_plugin.c. -/
def MIN_GAIN : ℚ := 0

/-- MAX_GAIN from gain-native-c/gain_plugin.c. -/
def MAX_GAIN : ℚ := 4

/-- The key the native parser searches for: "gain" with its quotes. -/
def gainKey : List Char := '"' :: 'g' :: 'a' :: 'i' :: 'n' :: '"' :: []

/-- The separator characters the native parser skips between the key and the
number: spaces, tabs and the colon. -/
def isSepChar (c : Char) : Bool := c == ' ' || c == '\t' || c == ':'

/-- The clamp performed at the end of parse_gain (two sequential ifs against
MIN_GAIN and MAX_GAIN). -/
def clampNative (value : ℚ) : ℚ :=
  let v := if value < MIN_GAIN then MIN_GAIN else value
  if v > MAX_GAIN then MAX_GAIN else v

/-- parse_gain from gain-native-c/gain_plugin.c: NULL or empty input, a
missing key, or an unparseable number all yield DEFAULT_GAIN; otherwise the
parsed number clamped to the valid range. -/
def parse_gain (json : Option String) : ℚ :=
  match json with
  | none => DEFAULT_GAIN
  | some s =>
    if s.data = [] then DEFAULT_GAIN
    else
      match strstrAfter gainKey s.data with
      | none => DEFAULT_GAIN
      | some keyRest =>
        match strtof (keyRest.dropWhile isSepChar) with
        | none => DEFAULT_GAIN
        | some value => clampNative value

/-- The raw number a payload requests from the native parser, before the
clamp: none on every branch where parse_gain falls back to DEFAULT_GAIN. -/
def gain_requested (json : Option String) : Option ℚ :=
  match json with
  | none => none
  | some s =>
    if s.data = [] then none
    else
      match strstrAfter gainKey s.data with
      | none => none
      | some keyRest => strtof (keyRest.dropWhile isSepChar)

/-! ### Native variant: lifecycle operations -/

/-- gain_create_instance: allocates state and stores the parsed gain.
Allocation is modelled as succeeding, so the instance state is returned
directly. -/
def gain_create_instance (params : Option String) : GainPluginState :=
  ⟨parse_gain params⟩

/-- gain_process_packet: NULL-handle check, tag check, NULL frame and NULL
samples checks, then one send of the scaled frame on pin "out", returning the
callback result verbatim. The second component lists the send invocations
performed. -/
def gain_process_packet (handle : Option GainPluginState) (input_pin : String)
    (packet : CPacket) (output_callback : String → CPacket → CResult) :
    CResult × List (String × CPacket) :=
  match handle with
  | none => (CResult_error "Null handle", [])
  | some state =>
    if packet.packet_type ≠ CPacketType.rawAudio then
      (CResult_error "Gain plugin only accepts audio packets", [])
    else
      match packet.audio with
      | none => (CResult_error "Invalid audio frame", [])
      | some input_frame =>
        match input_frame.samples with
        | none => (CResult_error "Invalid audio frame", [])
        | some samples =>
          let output_samples := samples.map (fun x => x * state.gain)
          let output_frame : CAudioFrame :=
            ⟨input_frame.sample_rate, input_frame.channels, some output_samples⟩
          let output_packet : CPacket := ⟨CPacketType.rawAudio, some output_frame⟩
          (output_callback "out" output_packet, [("out", output_packet)])

/-- gain_update_params: NULL-handle check, then the state gain is replaced by
parse_gain of the new payload and success is returned. The second component
is the state after the call. -/
def gain_update_params (handle : Option GainPluginState) (params : Option String) :
    CResult × Option GainPluginState :=
  match handle with
  | none => (CResult_error "Null handle", none)
  | some _ => (CResult_success, some ⟨parse_gain params⟩)

/-- gain_flush: the plugin buffers nothing; returns success and performs no
send invocation. -/
def gain_flush (handle : Option GainPluginState)
    (output_callback : String → CPacket → CResult) :
    CResult × List (String × CPacket) :=
  (CResult_success, [])

/-! ### Wasm (component model) variant: constants and parameter parsing -/

/-- MIN_GAIN_DB from gain-wasm-c/gain_plugin.c. -/
def MIN_GAIN_DB : ℚ := -60

/-- MAX_GAIN_DB from gain-wasm-c/gain_plugin.c. -/
def MAX_GAIN_DB : ℚ := 20

/-- clamp_f32 from gain-wasm-c/gain_plugin.c: two sequential early-return
comparisons. -/
def clamp_f32 (value mn mx : ℚ) : ℚ :=
  if value < mn then mn else if value > mx then mx else value

/-- db_to_linear from gain-wasm-c/gain_plugin.c: powf(10, db / 20), modelled
over the reals. -/
noncomputable def db_to_linear (db : ℚ) : ℝ :=
  (10 : ℝ) ^ ((db : ℝ) / 20)

/-- The key the wasm parser searches for: "gain_db" with its quotes. -/
def gainDbKey : List Char :=
  '"' :: 'g' :: 'a' :: 'i' :: 'n' :: '_' :: 'd' :: 'b' :: '"' :: []

/-- parse_gain_db from gain-wasm-c/gain_plugin.c: empty input, a missing key,
a missing colon, or an unparseable number all yield 0.0; otherwise the parsed
number. The sscanf %f conversion follows the same number grammar as strtof. -/
def parse_gain_db (s : String) : ℚ :=
  if s.data = [] then 0
  else
    match strstrSuffix gainDbKey s.data with
    | none => 0
    | some pos =>
      match strchrSuffix ':' pos with
      | none => 0
      | some colonSuffix =>
        match strtof (colonSuffix.drop 1) with
        | none => 0
        | some value => value

/-- The raw dB number a payload requests from the wasm parser: none on every
branch where parse_gain_db falls back to 0.0. -/
def gain_db_requested (s : String) : Option ℚ :=
  if s.data = [] then none
  else
    match strstrSuffix gainDbKey s.data with
    | none => none
    | some pos =>
      match strchrSuffix ':' pos with
      | none => none
      | some colonSuffix => strtof (colonSuffix.drop 1)

/-! ### Wasm variant: types and lifecycle operations -/

/-- gain_state_t from gain-wasm-c/gain_plugin.c: the stored linear gain. -/
structure gain_state_t where
  gain_linear : ℝ

/-- The audio frame payload of a wasm packet: sample rate, channels and the
interleaved sample list (its length is the samples.len field). -/
structure audio_frame_t where
  sample_rate : ℕ
  channels : ℕ
  samples : List ℝ

/-- The packet variant of the wasm binding. The plugin only reads the payload
of the audio arm; the other arms stand for every non-audio tag. -/
inductive WasmPacket
  | audio (frame : audio_frame_t)
  | text (s : String)
  | binary (bytes : List ℕ)

/-- The constructor export: allocates state, parses and clamps gain_db when a
non-empty payload is present (0 dB otherwise), and stores the linear gain. -/
noncomputable def exports_streamkit_plugin_node_constructor_node_instance
    (maybe_params : Option String) : gain_state_t :=
  let gain_db : ℚ :=
    match maybe_params with
    | some s =>
      if s.data ≠ [] then clamp_f32 (parse_gain_db s) MIN_GAIN_DB MAX_GAIN_DB
      else 0
    | none => 0
  ⟨db_to_linear gain_db⟩

/-- The process export: tag check, in-place scaling of the samples, one send
of the scaled packet on pin "out"; a send failure is forwarded as the returned
error. The result is the (success, error) pair together with the list of send
invocations performed. -/
noncomputable def exports_streamkit_plugin_node_method_node_instance_process
    (self : gain_state_t) (input_pin : String) (packet : WasmPacket)
    (send_output : String → WasmPacket → Bool × Option String) :
    (Bool × Option String) × List (String × WasmPacket) :=
  match packet with
  | WasmPacket.audio audio =>
    let scaled : audio_frame_t :=
      ⟨audio.sample_rate, audio.channels,
        audio.samples.map (fun x => x * self.gain_linear)⟩
    let out_packet := WasmPacket.audio scaled
    let res := send_output "out" out_packet
    if res.1 then ((true, none), [("out", out_packet)])
    else ((false, res.2), [("out", out_packet)])
  | _ => ((false, some "Gain filter only accepts audio packets"), [])

/-- The update-params export: an absent or empty payload returns success with
the state untouched; otherwise the parsed and clamped gain_db replaces the
stored linear gain. The second component is the state after the call. -/
noncomputable def exports_streamkit_plugin_node_method_node_instance_update_params
    (self : gain_state_t) (maybe_params : Option String) :
    (Bool × Option String) × gain_state_t :=
  match maybe_params with
  | none => ((true, none), self)
  | some s =>
    if s.data = [] then ((true, none), self)
    else
      let gain_db := clamp_f32 (parse_gain_db s) MIN_GAIN_DB MAX_GAIN_DB
      ((true, none), ⟨db_to_linear gain_db⟩)

/-- Allocation status of one wasm instance state pointer, used to track
deallocations across the cleanup method and the destructor. -/
inductive MemStatus
  | allocated
  | freed
  | doubleFreed
deriving DecidableEq

/-- A call to free on the instance state: a first free releases it, a second
free is a double free. -/
def free_state : MemStatus → MemStatus
  | MemStatus.allocated => MemStatus.freed
  | _ => MemStatus.doubleFreed

/-- The cleanup export: logs a shutdown message and then calls free on the
instance state. -/
def exports_streamkit_plugin_node_method_node_instance_cleanup :
    MemStatus → MemStatus :=
  free_state

/-- The destructor export: its body only discards the rep argument and frees
nothing (the source comments state cleanup already performed the free). -/
def exports_streamkit_plugin_node_node_instance_destructor :
    MemStatus → MemStatus :=
  fun rep => rep

/-! ### NaN-aware embedding of the parse and clamp path

The rational-valued model above covers the finite float grammar. C99 strtof
and sscanf with the f conversion additionally accept the spelling nan, which
produces a NaN float; a NaN compares false under < and >, so the two ordered
comparisons of each clamp pass it through. The definitions below re-embed the
same source lines over a value type that includes NaN, to evaluate that
path. -/

/-- A C float value including the NaN case. -/
inductive F32
  | nan
  | val (q : ℚ)
deriving DecidableEq

/-- The C < comparison on floats: false whenever either side is NaN. -/
def F32.lt : F32 → F32 → Bool
  | F32.val a, F32.val b => decide (a < b)
  | _, _ => false

/-- A finite value inside the closed range; NaN is within no range. -/
def F32.within (lo hi : ℚ) (v : F32) : Prop :=
  ∃ q : ℚ, v = F32.val q ∧ lo ≤ q ∧ q ≤ hi

/-- strtof including the C99 nan spelling (case-insensitive in C; the
lowercase spelling suffices for the trace): after optional whitespace and an
optional sign, nan parses to NaN, otherwise the finite grammar of scanFloat
applies. -/
def strtofF (s : List Char) : Option F32 :=
  let s1 := s.dropWhile isCSpace
  let s2 :=
    match s1 with
    | '-' :: t => t
    | '+' :: t => t
    | t => t
  if ['n', 'a', 'n'].isPrefixOf s2 then some F32.nan
  else (scanFloat s).map (fun l => F32.val l.toRat)

/-- The clamp at the end of parse_gain over NaN-aware floats: both
comparisons at gain-native-c/gain_plugin.c lines 90-91 are false for NaN, so
NaN passes through unclamped. -/
def clampNativeF (value : F32) : F32 :=
  let v := if F32.lt value (F32.val MIN_GAIN) then F32.val MIN_GAIN else value
  if F32.lt (F32.val MAX_GAIN) v then F32.val MAX_GAIN else v

/-- parse_gain over NaN-aware floats: identical control flow to parse_gain,
with strtof accepting the nan spelling. -/
def parse_gainF (json : Option String) : F32 :=
  match json with
  | none => F32.val DEFAULT_GAIN
  | some s =>
    if s.data = [] then F32.val DEFAULT_GAIN
    else
      match strstrAfter gainKey s.data with
      | none => F32.val DEFAULT_GAIN
      | some keyRest =>
        match strtofF (keyRest.dropWhile isSepChar) with
        | none => F32.val DEFAULT_GAIN
        | some value => clampNativeF value

/-- gain_create_instance over NaN-aware floats: the stored gain is the parse
result. -/
def gain_create_instanceF (params : Option String) : F32 :=
  parse_gainF params

/-- clamp_f32 over NaN-aware floats (gain-wasm-c/gain_plugin.c lines 32-36):
both early-return comparisons are false for NaN, so NaN is returned
unchanged. -/
def clamp_f32F (value mn mx : F32) : F32 :=
  if F32.lt value mn then mn else if F32.lt mx value then mx else value

/-- parse_gain_db over NaN-aware floats: identical control flow to
parse_gain_db, with the sscanf f conversion accepting the nan spelling. -/
def parse_gain_dbF (s : String) : F32 :=
  if s.data = [] then F32.val 0
  else
    match strstrSuffix gainDbKey s.data with
    | none => F32.val 0
    | some pos =>
      match strchrSuffix ':' pos with
      | none => F32.val 0
      | some colonSuffix =>
        match strtofF (colonSuffix.drop 1) with
        | none => F32.val 0
        | some value => value

/-! ### Helper lemmas about the parsers and clamps -/

/-- On every branch where no number is extracted, parse_gain falls back to
DEFAULT_GAIN. -/
theorem parse_gain_of_requested_none (json : Option String)
    (h : gain_requested json = none) : parse_gain json = DEFAULT_GAIN := by
  cases json with
  | none => rfl
  | some s =>
    by_cases he : s.data = []
    · simp [parse_gain, he]
    · cases hss : strstrAfter gainKey s.data with
      | none => simp [parse_gain, he, hss]
      | some rest =>
        have h2 : strtof (rest.dropWhile isSepChar) = none := by
          simpa [gain_requested, he, hss] using h
        simp [parse_gain, he, hss, h2]

/-- When a number is extracted, parse_gain stores it clamped. -/
theorem parse_gain_of_requested_some (json : Option String) (v : ℚ)
    (h : gain_requested json = some v) : parse_gain json = clampNative v := by
  cases json with
  | none => exact absurd h (by simp [gain_requested])
  | some s =>
    by_cases he : s.data = []
    · simp [gain_requested, he] at h
    · cases hss : strstrAfter gainKey s.data with
      | none => simp [gain_requested, he, hss] at h
      | some rest =>
        have h2 : strtof (rest.dropWhile isSepChar) = some v := by
          simpa [gain_requested, he, hss] using h
        simp [parse_gain, he, hss, h2]

/-- Evaluation helper for gain_requested on concrete strings: the stages are
discharged separately so each one is decidable. -/
theorem gain_requested_eval (s : String) (rest : List Char) (lit : FloatLit)
    (h0 : s.data ≠ [])
    (h1 : strstrAfter gainKey s.data = some rest)
    (h2 : scanFloat (rest.dropWhile isSepChar) = some lit) :
    gain_requested (some s) = some lit.toRat := by
  simp [gain_requested, h0, h1, strtof, h2]

/-- On every branch where no number is extracted, parse_gain_db falls back
to 0. -/
theorem parse_gain_db_of_requested_none (s : String)
    (h : gain_db_requested s = none) : parse_gain_db s = 0 := by
  by_cases he : s.data = []
  · simp [parse_gain_db, he]
  · cases hss : strstrSuffix gainDbKey s.data with
    | none => simp [parse_gain_db, he, hss]
    | some pos =>
      cases hch : strchrSuffix ':' pos with
      | none => simp [parse_gain_db, he, hss, hch]
      | some colonSuffix =>
        have h2 : strtof colonSuffix.tail = none := by
          simpa [gain_db_requested, he, hss, hch, List.drop_one] using h
        simp [parse_gain_db, he, hss, hch, List.drop_one, h2]

/-- When a number is extracted, parse_gain_db returns it unchanged. -/
theorem parse_gain_db_of_requested_some (s : String) (v : ℚ)
    (h : gain_db_requested s = some v) : parse_gain_db s = v := by
  by_cases he : s.data = []
  · simp [gain_db_requested, he] at h
  · cases hss : strstrSuffix gainDbKey s.data with
    | none => simp [gain_db_requested, he, hss] at h
    | some pos =>
      cases hch : strchrSuffix ':' pos with
      | none => simp [gain_db_requested, he, hss, hch] at h
      | some colonSuffix =>
        have h2 : strtof colonSuffix.tail = some v := by
          simpa [gain_db_requested, he, hss, hch, List.drop_one] using h
        simp [parse_gain_db, he, hss, hch, List.drop_one, h2]

/-- A payload from which a dB number is extracted is not empty. -/
theorem gain_db_requested_ne_empty (s : String) (v : ℚ)
    (h : gain_db_requested s = some v) : s.data ≠ [] := by
  intro he
  simp [gain_db_requested, he] at h

/-- Evaluation helper for gain_db_requested on concrete strings. -/
theorem gain_db_requested_eval (s : String) (pos colonSuffix : List Char)
    (lit : FloatLit)
    (h0 : s.data ≠ [])
    (h1 : strstrSuffix gainDbKey s.data = some pos)
    (h2 : strchrSuffix ':' pos = some colonSuffix)
    (h3 : scanFloat colonSuffix.tail = some lit) :
    gain_db_requested s = some lit.toRat := by
  simp [gain_db_requested, h0, h1, h2, strtof, List.drop_one, h3]

/-- clampNative maps values below MIN_GAIN to MIN_GAIN. -/
theorem clampNative_of_lt (v : ℚ) (h : v < MIN_GAIN) :
    clampNative v = MIN_GAIN := by
  simp only [clampNative, if_pos h]
  norm_num [MIN_GAIN, MAX_GAIN]

/-- clampNative maps values above MAX_GAIN to MAX_GAIN. -/
theorem clampNative_of_gt (v : ℚ) (h : MAX_GAIN < v) :
    clampNative v = MAX_GAIN := by
  have hv : ¬ v < MIN_GAIN := by
    simp only [MIN_GAIN, MAX_GAIN] at *
    linarith
  simp only [clampNative, if_neg hv, if_pos h]

/-- clamp_f32 maps values below the lower bound to the lower bound. -/
theorem clamp_f32_of_lt (v mn mx : ℚ) (h : v < mn) :
    clamp_f32 v mn mx = mn := by
  simp [clamp_f32, h]

/-- clamp_f32 maps values above the upper bound to the upper bound. -/
theorem clamp_f32_of_gt (v mn mx : ℚ) (hmn : mn ≤ mx) (h : mx < v) :
    clamp_f32 v mn mx = mx := by
  have hv : ¬ v < mn := by linarith
  simp [clamp_f32, hv, h]

/-- A gain of 0 dB is the linear unity gain. -/
theorem db_to_linear_zero : db_to_linear 0 = 1 := by
  simp [db_to_linear]

/-! ### Claim theorems -/

/-- C1: processing a RawAudio packet sends exactly one packet on pin "out"
whose sample array is the input array scaled elementwise by the effective
gain, with the input's sample_rate, channels and sample count (the length of
the sample list) preserved; the native variant returns the send capability's
result verbatim and the wasm variant returns success given a successful
send. -/
theorem c1_process_scales_and_sends_once
    (g : ℚ) (r c : ℕ) (S : List ℚ) (pin : String)
    (cb : String → CPacket → CResult)
    (t : gain_state_t) (r2 c2 : ℕ) (T : List ℝ) (pin2 : String)
    (send : String → WasmPacket → Bool × Option String)
    (hsend : (send "out"
      (WasmPacket.audio ⟨r2, c2, T.map (fun x => x * t.gain_linear)⟩)).1 = true) :
    gain_process_packet (some ⟨g⟩) pin
        ⟨CPacketType.rawAudio, some ⟨r, c, some S⟩⟩ cb =
      (cb "out" ⟨CPacketType.rawAudio, some ⟨r, c, some (S.map (fun x => x * g))⟩⟩,
        [("out", ⟨CPacketType.rawAudio, some ⟨r, c, some (S.map (fun x => x * g))⟩⟩)]) ∧
    exports_streamkit_plugin_node_method_node_instance_process t pin2
        (WasmPacket.audio ⟨r2, c2, T⟩) send =
      ((true, none),
        [("out", WasmPacket.audio ⟨r2, c2, T.map (fun x => x * t.gain_linear)⟩)]) := by
  constructor
  · rfl
  · simp only [exports_streamkit_plugin_node_method_node_instance_process]
    rw [if_pos hsend]

/-- Witness for C1 at the spec's end-to-end example (gain 2 on four mono
samples) together with a concrete successful send capability. -/
theorem c1_witness :
    gain_process_packet (some ⟨2⟩) "in"
        ⟨CPacketType.rawAudio, some ⟨48000, 1, some [1/10, -2/10, 3/10, 0]⟩⟩
        (fun _ _ => CResult_success) =
      (CResult_success,
        [("out", ⟨CPacketType.rawAudio,
          some ⟨48000, 1, some ([1/10, -2/10, 3/10, 0].map (fun x => x * 2))⟩⟩)]) ∧
    exports_streamkit_plugin_node_method_node_instance_process ⟨2⟩ "in"
        (WasmPacket.audio ⟨48000, 1, [1, 0]⟩) (fun _ _ => (true, none)) =
      ((true, none),
        [("out", WasmPacket.audio ⟨48000, 1, [1, 0].map (fun x => x * (⟨2⟩ : gain_state_t).gain_linear)⟩)]) := by
  have h := c1_process_scales_and_sends_once 2 48000 1 [1/10, -2/10, 3/10, 0] "in"
    (fun _ _ => CResult_success) ⟨2⟩ 48000 1 [1, 0] "in" (fun _ _ => (true, none)) rfl
  exact ⟨h.1, h.2⟩

/-- C4: a packet whose tag is not RawAudio makes process return a failed
result with a descriptive message and produce zero send invocations, in both
variants. -/
theorem c4_non_audio_rejected
    (state : GainPluginState) (pin : String) (pkt : CPacket)
    (cb : String → CPacket → CResult)
    (htag : pkt.packet_type ≠ CPacketType.rawAudio)
    (t : gain_state_t) (pin2 : String) (p : WasmPacket)
    (send : String → WasmPacket → Bool × Option String)
    (hp : ∀ f, p ≠ WasmPacket.audio f) :
    gain_process_packet (some state) pin pkt cb =
      (CResult_error "Gain plugin only accepts audio packets", []) ∧
    exports_streamkit_plugin_node_method_node_instance_process t pin2 p send =
      ((false, some "Gain filter only accepts audio packets"), []) := by
  constructor
  · simp [gain_process_packet, htag]
  · cases p with
    | audio f => exact absurd rfl (hp f)
    | text s => rfl
    | binary b => rfl

/-- Witness for C4 at a Text packet. -/
theorem c4_witness :
    (⟨CPacketType.text, none⟩ : CPacket).packet_type ≠ CPacketType.rawAudio ∧
    gain_process_packet (some ⟨1⟩) "in" ⟨CPacketType.text, none⟩
        (fun _ _ => CResult_success) =
      (CResult_error "Gain plugin only accepts audio packets", []) ∧
    exports_streamkit_plugin_node_method_node_instance_process ⟨1⟩ "in"
        (WasmPacket.text "hello") (fun _ _ => (true, none)) =
      ((false, some "Gain filter only accepts audio packets"), []) := by
  have h := c4_non_audio_rejected ⟨1⟩ "in" ⟨CPacketType.text, none⟩
    (fun _ _ => CResult_success) (by decide) ⟨1⟩ "in" (WasmPacket.text "hello")
    (fun _ _ => (true, none)) (fun f hf => WasmPacket.noConfusion hf)
  exact ⟨by decide, h.1, h.2⟩

/-- C8: flush returns success and performs zero send invocations for every
handle (the gain plugin buffers nothing). -/
theorem c8_flush_success_no_output (handle : Option GainPluginState)
    (output_callback : String → CPacket → CResult) :
    gain_flush handle output_callback = (CResult_success, []) :=
  rfl

/-- C9: on a valid RawAudio packet, the result process returns is exactly the
send capability's result: the native variant returns the callback's CResult
verbatim; the wasm variant returns success on a successful send and the
send's error on a failed one. -/
theorem c9_process_result_is_send_result
    (g : ℚ) (r c : ℕ) (S : List ℚ) (pin : String)
    (cb : String → CPacket → CResult)
    (t : gain_state_t) (r2 c2 : ℕ) (T : List ℝ) (pin2 : String)
    (send : String → WasmPacket → Bool × Option String) :
    (gain_process_packet (some ⟨g⟩) pin
        ⟨CPacketType.rawAudio, some ⟨r, c, some S⟩⟩ cb).1 =
      cb "out" ⟨CPacketType.rawAudio, some ⟨r, c, some (S.map (fun x => x * g))⟩⟩ ∧
    (exports_streamkit_plugin_node_method_node_instance_process t pin2
        (WasmPacket.audio ⟨r2, c2, T⟩) send).1 =
      (if (send "out" (WasmPacket.audio ⟨r2, c2, T.map (fun x => x * t.gain_linear)⟩)).1 then
        ((true : Bool), (none : Option String))
      else
        (false,
          (send "out" (WasmPacket.audio ⟨r2, c2, T.map (fun x => x * t.gain_linear)⟩)).2)) := by
  constructor
  · rfl
  · by_cases h : (send "out"
      (WasmPacket.audio ⟨r2, c2, T.map (fun x => x * t.gain_linear)⟩)).1 = true
    · simp only [exports_streamkit_plugin_node_method_node_instance_process]
      rw [if_pos h, if_pos h]
    · simp only [exports_streamkit_plugin_node_method_node_instance_process]
      rw [if_neg h, if_neg h]

/-- C10: the native binding returns "Null handle" for a null instance handle
in process_packet and update_params, and "Invalid audio frame" for a RawAudio
packet whose frame pointer or samples pointer is null, each with zero send
invocations. -/
theorem c10_null_pointer_checks
    (pin : String) (pkt : CPacket) (cb : String → CPacket → CResult)
    (ps : Option String) (state : GainPluginState) (r c : ℕ) :
    gain_process_packet none pin pkt cb = (CResult_error "Null handle", []) ∧
    gain_update_params none ps = (CResult_error "Null handle", none) ∧
    gain_process_packet (some state) pin ⟨CPacketType.rawAudio, none⟩ cb =
      (CResult_error "Invalid audio frame", []) ∧
    gain_process_packet (some state) pin ⟨CPacketType.rawAudio, some ⟨r, c, none⟩⟩ cb =
      (CResult_error "Invalid audio frame", []) := by
  refine ⟨rfl, rfl, ?_, ?_⟩ <;> simp [gain_process_packet]

/-- C2 counterexample: create an instance with gain 2.0, then call
update_params with an empty payload. The claim predicts success with the
gain left at its previous value 2.0; the native code resets it to the
default 1.0, so the claimed conjunction is false at this input. -/
theorem c2_counterexample :
    ¬((gain_update_params
        (some (gain_create_instance (some "\"gain\": 2.0"))) (some "")).1 = CResult_success ∧
      (gain_update_params
        (some (gain_create_instance (some "\"gain\": 2.0"))) (some "")).2 =
        some (gain_create_instance (some "\"gain\": 2.0"))) := by
  intro h
  have hreq : gain_requested (some "\"gain\": 2.0") = some (2 : ℚ) := by
    have he := gain_requested_eval "\"gain\": 2.0" [':', ' ', '2', '.', '0']
      ⟨false, ['2'], ['0'], 0⟩ (by decide) (by decide) (by decide)
    rw [he]
    have hd2 : digitsToNat ['2'] = 2 := by decide
    have hd0 : digitsToNat ['0'] = 0 := by decide
    norm_num [FloatLit.toRat, hd2, hd0, pow10]
  have hcreate : gain_create_instance (some "\"gain\": 2.0") = ⟨2⟩ := by
    have hp := parse_gain_of_requested_some _ _ hreq
    have hc : clampNative 2 = 2 := by norm_num [clampNative, MIN_GAIN, MAX_GAIN]
    simp [gain_create_instance, hp, hc]
  have hempty : parse_gain (some "") = 1 := by
    simp [parse_gain, DEFAULT_GAIN]
  have h2 := h.2
  rw [hcreate] at h2
  simp only [gain_update_params, hempty] at h2
  have : (1 : ℚ) = 2 := congrArg GainPluginState.gain (Option.some.injEq _ _ ▸ h2)
  norm_num at this

/-- C2 amended: update_params always returns success on an absent, empty or
malformed payload, but the effective gain is not in general preserved: the
native variant resets it to the schema default 1.0 in all those cases, while
the wasm variant leaves it unchanged only for an absent or empty payload and
resets it to the default (0 dB, linear 1.0) for a present but malformed
one. -/
theorem c2_amended_update_params
    (s0 : GainPluginState) (ps : Option String)
    (hmal : gain_requested ps = none)
    (t : gain_state_t) (s : String) (hne : s.data ≠ [])
    (hmal2 : gain_db_requested s = none) :
    gain_update_params (some s0) ps = (CResult_success, some ⟨DEFAULT_GAIN⟩) ∧
    exports_streamkit_plugin_node_method_node_instance_update_params t none =
      ((true, none), t) ∧
    exports_streamkit_plugin_node_method_node_instance_update_params t (some "") =
      ((true, none), t) ∧
    exports_streamkit_plugin_node_method_node_instance_update_params t (some s) =
      ((true, none), ⟨db_to_linear 0⟩) ∧
    db_to_linear 0 = 1 := by
  refine ⟨?_, rfl, ?_, ?_, db_to_linear_zero⟩
  · simp [gain_update_params, parse_gain_of_requested_none ps hmal]
  · simp [exports_streamkit_plugin_node_method_node_instance_update_params]
  · have hp := parse_gain_db_of_requested_none s hmal2
    have hc : clamp_f32 0 MIN_GAIN_DB MAX_GAIN_DB = 0 := by
      norm_num [clamp_f32, MIN_GAIN_DB, MAX_GAIN_DB]
    simp [exports_streamkit_plugin_node_method_node_instance_update_params, hne, hp, hc]

/-- Witness for the amended C2 at a previous gain of 2, an empty native
payload and a key-free wasm payload. -/
theorem c2_amended_witness :
    gain_requested (some "") = none ∧
    ("no gain key").data ≠ [] ∧
    gain_db_requested "no gain key" = none ∧
    gain_update_params (some ⟨2⟩) (some "") = (CResult_success, some ⟨DEFAULT_GAIN⟩) ∧
    exports_streamkit_plugin_node_method_node_instance_update_params ⟨2⟩
      (some "no gain key") = ((true, none), ⟨db_to_linear 0⟩) := by
  have h := c2_amended_update_params ⟨2⟩ (some "") (by decide) ⟨2⟩ "no gain key"
    (by decide) (by decide)
  exact ⟨by decide, by decide, by decide, h.1, h.2.2.2.1⟩

/-- C3: a requested gain outside the schema range is stored as the nearest
bound, never as the requested value itself: the native variant stores the
clamped linear gain, the wasm variant stores the linear value of the clamped
dB gain, in create as well as in update_params. -/
theorem c3_out_of_range_clamps_to_bound
    (ps : Option String) (g : ℚ) (hreq : gain_requested ps = some g)
    (hout : g < MIN_GAIN ∨ MAX_GAIN < g)
    (s : String) (d : ℚ) (hd : gain_db_requested s = some d)
    (hdout : d < MIN_GAIN_DB ∨ MAX_GAIN_DB < d) :
    (gain_create_instance ps).gain = (if g < MIN_GAIN then MIN_GAIN else MAX_GAIN) ∧
    (∀ s0, (gain_update_params (some s0) ps).2 =
      some ⟨if g < MIN_GAIN then MIN_GAIN else MAX_GAIN⟩) ∧
    (gain_create_instance ps).gain ≠ g ∧
    (exports_streamkit_plugin_node_constructor_node_instance (some s)).gain_linear =
      db_to_linear (if d < MIN_GAIN_DB then MIN_GAIN_DB else MAX_GAIN_DB) ∧
    (∀ t, ((exports_streamkit_plugin_node_method_node_instance_update_params t
        (some s)).2).gain_linear =
      db_to_linear (if d < MIN_GAIN_DB then MIN_GAIN_DB else MAX_GAIN_DB)) := by
  have hparse : parse_gain ps = (if g < MIN_GAIN then MIN_GAIN else MAX_GAIN) := by
    rw [parse_gain_of_requested_some ps g hreq]
    rcases hout with hlt | hgt
    · rw [if_pos hlt, clampNative_of_lt g hlt]
    · have hnlt : ¬ g < MIN_GAIN := by
        simp only [MIN_GAIN, MAX_GAIN] at *
        linarith
      rw [if_neg hnlt, clampNative_of_gt g hgt]
  have hsne : s.data ≠ [] := gain_db_requested_ne_empty s d hd
  have hpdb : parse_gain_db s = d := parse_gain_db_of_requested_some s d hd
  have hclamp : clamp_f32 (parse_gain_db s) MIN_GAIN_DB MAX_GAIN_DB =
      (if d < MIN_GAIN_DB then MIN_GAIN_DB else MAX_GAIN_DB) := by
    rw [hpdb]
    rcases hdout with hlt | hgt
    · rw [if_pos hlt, clamp_f32_of_lt d MIN_GAIN_DB MAX_GAIN_DB hlt]
    · have hnlt : ¬ d < MIN_GAIN_DB := by
        simp only [MIN_GAIN_DB, MAX_GAIN_DB] at *
        linarith
      rw [if_neg hnlt,
        clamp_f32_of_gt d MIN_GAIN_DB MAX_GAIN_DB (by norm_num [MIN_GAIN_DB, MAX_GAIN_DB]) hgt]
  refine ⟨?_, ?_, ?_, ?_, ?_⟩
  · show parse_gain ps = _
    exact hparse
  · intro s0
    simp [gain_update_params, hparse]
  · show parse_gain ps ≠ g
    rw [hparse]
    rcases hout with hlt | hgt
    · rw [if_pos hlt]
      exact ne_of_gt hlt
    · have hnlt : ¬ g < MIN_GAIN := by
        simp only [MIN_GAIN, MAX_GAIN] at *
        linarith
      rw [if_neg hnlt]
      exact ne_of_lt hgt
  · simp [exports_streamkit_plugin_node_constructor_node_instance, hsne, hclamp]
  · intro t
    simp [exports_streamkit_plugin_node_method_node_instance_update_params, hsne, hclamp]

/-- Witness for C3: a native payload requesting gain -1 (below the minimum 0)
is stored as 0, and a wasm payload requesting 100 dB (above the maximum 20)
is stored as the linear value of 20 dB. -/
theorem c3_witness :
    gain_requested (some "\"gain\": -1") = some (-1) ∧
    gain_db_requested "\"gain_db\": 100" = some 100 ∧
    (gain_create_instance (some "\"gain\": -1")).gain =
      (if (-1 : ℚ) < MIN_GAIN then MIN_GAIN else MAX_GAIN) ∧
    (gain_create_instance (some "\"gain\": -1")).gain ≠ (-1 : ℚ) ∧
    (exports_streamkit_plugin_node_constructor_node_instance
        (some "\"gain_db\": 100")).gain_linear =
      db_to_linear (if (100 : ℚ) < MIN_GAIN_DB then MIN_GAIN_DB else MAX_GAIN_DB) := by
  have hreq : gain_requested (some "\"gain\": -1") = some (-1 : ℚ) := by
    have he := gain_requested_eval "\"gain\": -1" [':', ' ', '-', '1']
      ⟨true, ['1'], [], 0⟩ (by decide) (by decide) (by decide)
    rw [he]
    have hd1 : digitsToNat ['1'] = 1 := by decide
    have hd0 : digitsToNat ([] : List Char) = 0 := by decide
    norm_num [FloatLit.toRat, hd1, hd0, pow10]
  have hdreq : gain_db_requested "\"gain_db\": 100" = some (100 : ℚ) := by
    have he := gain_db_requested_eval "\"gain_db\": 100"
      ['"', 'g', 'a', 'i', 'n', '_', 'd', 'b', '"', ':', ' ', '1', '0', '0']
      [':', ' ', '1', '0', '0'] ⟨false, ['1', '0', '0'], [], 0⟩
      (by decide) (by decide) (by decide) (by decide)
    rw [he]
    have hd1 : digitsToNat ['1', '0', '0'] = 100 := by decide
    have hd0 : digitsToNat ([] : List Char) = 0 := by decide
    norm_num [FloatLit.toRat, hd1, hd0, pow10]
  have h := c3_out_of_range_clamps_to_bound (some "\"gain\": -1") (-1) hreq
    (Or.inl (by norm_num [MIN_GAIN])) "\"gain_db\": 100" 100 hdreq
    (Or.inr (by norm_num [MAX_GAIN_DB]))
  exact ⟨hreq, hdreq, h.1, h.2.2.1, h.2.2.2.1⟩

/-- C5: create with an absent, empty or malformed payload succeeds and the
resulting instance carries the schema default: linear gain 1.0 in the native
variant, 0 dB (linear 1.0) in the wasm variant. -/
theorem c5_create_defaults
    (ps : Option String) (h : gain_requested ps = none)
    (qs : Option String) (h2 : ∀ s, qs = some s → gain_db_requested s = none) :
    (gain_create_instance ps).gain = DEFAULT_GAIN ∧
    (exports_streamkit_plugin_node_constructor_node_instance qs).gain_linear = 1 := by
  constructor
  · show parse_gain ps = DEFAULT_GAIN
    exact parse_gain_of_requested_none ps h
  · cases qs with
    | none => exact db_to_linear_zero
    | some s =>
      by_cases he : s.data = []
      · simp [exports_streamkit_plugin_node_constructor_node_instance, he, db_to_linear_zero]
      · have hp := parse_gain_db_of_requested_none s (h2 s rfl)
        have hc : clamp_f32 0 MIN_GAIN_DB MAX_GAIN_DB = 0 := by
          norm_num [clamp_f32, MIN_GAIN_DB, MAX_GAIN_DB]
        simp [exports_streamkit_plugin_node_constructor_node_instance, he, hp, hc,
          db_to_linear_zero]

/-- Witness for C5 at an absent native payload and a key-free wasm payload. -/
theorem c5_witness :
    gain_requested none = none ∧
    gain_db_requested "no gain key" = none ∧
    (gain_create_instance none).gain = DEFAULT_GAIN ∧
    (exports_streamkit_plugin_node_constructor_node_instance
        (some "no gain key")).gain_linear = 1 := by
  have h := c5_create_defaults none rfl (some "no gain key")
    (fun s hs => by cases hs; decide)
  exact ⟨rfl, by decide, h.1, h.2⟩

/-- C6: the range invariant fails on the real code. C99 strtof and the
sscanf f conversion parse the spelling nan to NaN, both ordered clamp
comparisons are false for NaN in each variant, and create stores the parse
result, so the payload whose gain value is spelled nan yields a stored gain
that is within no range at all — against the claim, the clamp policy of the
spec, and the Clamp-to-valid-range comment in the source. This theorem
evaluates the NaN-aware embedding at that failing input for both variants. -/
theorem c6_nan_escapes_clamp :
    gain_create_instanceF (some "\"gain\": nan") = F32.nan ∧
    ¬ F32.within MIN_GAIN MAX_GAIN (gain_create_instanceF (some "\"gain\": nan")) ∧
    parse_gain_dbF "\"gain_db\": nan" = F32.nan ∧
    clamp_f32F F32.nan (F32.val MIN_GAIN_DB) (F32.val MAX_GAIN_DB) = F32.nan := by
  have h1 : gain_create_instanceF (some "\"gain\": nan") = F32.nan := by decide
  have h2 : parse_gain_dbF "\"gain_db\": nan" = F32.nan := by decide
  refine ⟨h1, ?_, h2, rfl⟩
  rw [h1]
  rintro ⟨q, hq, -, -⟩
  exact F32.noConfusion hq

/-- C7 counterexample: the destructor does not perform the release of a
still-allocated instance state; its body frees nothing, so the state stays
allocated, contradicting the claim that the destructor performs the final
release. -/
theorem c7_counterexample :
    ¬ exports_streamkit_plugin_node_node_instance_destructor MemStatus.allocated =
      MemStatus.freed := by
  decide

/-- C7 amended: in the resource-style binding the cleanup method performs the
final release of the instance state and the destructor is a no-op, so the
sequence of cleanup followed by the destructor frees the state exactly once
(it ends freed, not double-freed). -/
theorem c7_amended_cleanup_frees_once :
    (∀ m, exports_streamkit_plugin_node_node_instance_destructor m = m) ∧
    exports_streamkit_plugin_node_method_node_instance_cleanup MemStatus.allocated =
      MemStatus.freed ∧
    exports_streamkit_plugin_node_node_instance_destructor
        (exports_streamkit_plugin_node_method_node_instance_cleanup
          MemStatus.allocated) =
      MemStatus.freed :=
  ⟨fun _ => rfl, rfl, rfl⟩
